import Mathlib

/-!
# Verification of the ggez canvas module (`src/graphics/canvas.rs`)

Shallow embedding of the render-target switching and off-screen surface
lifecycle: `Canvas::new`, `Canvas::with_window_size`, `Canvas::get_image`,
`Canvas::into_inner`, the `Drawable` blend-mode forwarding, and `set_canvas`.

Machine integers are modelled as `Nat`; the `width as u16` cast in
`Canvas::new` becomes an explicit `% 2^16`.  The gfx factory and the parts
of the crate not present under `src/` (the `Context`, `Image` and
`NumSamples` declarations, `get_drawable_size`) are modelled from the
specification at their interface boundary.
-/

namespace Ggez

/-- Antialiasing mode, from `gfx::texture::AaMode` as used by `Canvas::new`:
single-sampled, or multisampled with a given sample count. -/
inductive AaMode where
  | Single : AaMode
  | Multi (samples : Nat) : AaMode
deriving DecidableEq, Repr

/-- Modelled from the spec: `NumSamples` (in `conf.rs`, not under `src/`) is
the antialiasing level passed to `Canvas::new`; `SampleCount` is either
`None` (single-sampled, here `One`) or a backend-supported multisample
count. -/
inductive NumSamples where
  | One : NumSamples
  | Two : NumSamples
  | Four : NumSamples
  | Eight : NumSamples
  | Sixteen : NumSamples
deriving DecidableEq, Repr

/-- The numeric value of a `NumSamples` variant (`s as u8` in the source). -/
def NumSamples.toU8 : NumSamples → Nat
  | .One => 1
  | .Two => 2
  | .Four => 4
  | .Eight => 8
  | .Sixteen => 16

/-- The `match samples` expression of `Canvas::new`:
`NumSamples::One => AaMode::Single, s => AaMode::Multi(s as u8)`. -/
def samplesToAa : NumSamples → AaMode
  | .One => AaMode.Single
  | s => AaMode.Multi s.toU8

/-- Texture kind, from `gfx::texture::Kind`; `Canvas::new` only uses
`Kind::D2(w, h, aa)` with `w h : u16`. -/
inductive Kind where
  | D2 (w : Nat) (h : Nat) (aa : AaMode) : Kind
deriving DecidableEq, Repr

/-- The stored width of a texture kind. -/
def Kind.width : Kind → Nat
  | .D2 w _ _ => w

/-- The stored height of a texture kind. -/
def Kind.height : Kind → Nat
  | .D2 _ h _ => h

/-- Modelled from the spec: a GPU texture handle; gfx handles carry the
kind (dimensions, antialiasing) they were allocated with. -/
structure Texture where
  kind : Kind
deriving DecidableEq, Repr

/-- Modelled from the spec: the shader-readable view onto a texture
(`gfx::handle::ShaderResourceView`), a non-owning handle referencing the
underlying allocation. -/
structure ShaderResourceView where
  tex : Texture
deriving DecidableEq, Repr

/-- Modelled from the spec: the render-destination view onto a texture
(`gfx::handle::RenderTargetView`), a non-owning handle referencing the
underlying allocation; `clone()` on it is a plain handle copy. -/
structure RenderTargetView where
  tex : Texture
deriving DecidableEq, Repr

/-- Modelled from the spec: the allocation errors of the off-screen surface
allocator (`AllocationError` in the error module, not under `src/`):
dimensions beyond the backend limit fail with `UnsupportedSize`; any other
backend rejection surfaces as `BackendFailure(cause)`. -/
inductive AllocationError where
  | UnsupportedSize : AllocationError
  | BackendFailure (cause : String) : AllocationError
deriving DecidableEq, Repr

/-- Modelled from the spec: the gfx factory collaborator, holding the
backend's texture-size limit.  The backend's native integer width for
dimensions is 16 bits, so the limit is at most `2^16 - 1`. -/
structure Factory where
  maxTextureSize : Nat
deriving DecidableEq, Repr

/-- Modelled from the spec: `factory.create_texture(kind, levels, binds,
usage, channel)`.  A size of 0, or one exceeding the backend's
texture-size limit, fails with `UnsupportedSize`; otherwise the texture is
allocated, bindable as shader resource and render target.  Out-of-memory
style failures (`BackendFailure`) are environment nondeterminism and are
not modelled. -/
def Factory.create_texture (f : Factory) (kind : Kind) :
    Except AllocationError Texture :=
  if kind.width = 0 ∨ kind.height = 0 ∨ f.maxTextureSize < kind.width ∨
      f.maxTextureSize < kind.height then
    .error .UnsupportedSize
  else
    .ok { kind := kind }

/-- Modelled from the spec: `factory.view_texture_as_shader_resource`.
`Canvas::new` always creates the texture with the `SHADER_RESOURCE` bind,
so the view creation succeeds and returns a handle onto the same
allocation. -/
def view_texture_as_shader_resource (tex : Texture) :
    Except AllocationError ShaderResourceView :=
  .ok { tex := tex }

/-- Modelled from the spec: `factory.view_texture_as_render_target`.
`Canvas::new` always creates the texture with the `RENDER_TARGET` bind, so
the view creation succeeds and returns a handle onto the same
allocation. -/
def view_texture_as_render_target (tex : Texture) :
    Except AllocationError RenderTargetView :=
  .ok { tex := tex }

/-- Modelled from the spec: the sampling configuration (filtering/wrapping)
attached to an image (`gfx::texture::SamplerInfo`). -/
structure SamplerInfo where
  filter : Nat
  wrap : Nat
deriving DecidableEq, Repr

/-- Modelled from the spec: the blend mode used when an image is later
drawn as a texture (`BlendMode` in the graphics module, not under
`src/`). -/
inductive BlendMode where
  | Add : BlendMode
  | Subtract : BlendMode
  | Alpha : BlendMode
  | Invert : BlendMode
  | Multiply : BlendMode
  | Replace : BlendMode
  | Lighten : BlendMode
  | Darken : BlendMode
deriving DecidableEq, Repr

/-- Modelled from the spec: the `Image` struct (declared in the graphics
module, not under `src/`); `Canvas::new` constructs it with exactly these
fields (`texture`, `sampler_info`, `blend_mode`, `width`, `height`), the
dimensions being the full `u32` values. -/
structure Image where
  texture : ShaderResourceView
  sampler_info : SamplerInfo
  blend_mode : Option BlendMode
  width : Nat
  height : Nat
deriving DecidableEq, Repr

/-- Modelled from the spec: the graphics-context state the canvas module
touches: the factory, the default sampling configuration, the screen
render destination captured at context creation, and `data.out`, the
active render destination that draw commands write to. -/
structure GfxContext where
  factory : Factory
  default_sampler_info : SamplerInfo
  screen_render_target : RenderTargetView
  data_out : RenderTargetView
deriving DecidableEq, Repr

/-- Modelled from the spec: the `Context`, holding the graphics context
and (for `get_drawable_size`) the windowing collaborator's current
drawable pixel size. -/
structure Context where
  gfx_context : GfxContext
  window_drawable_size : Nat × Nat
deriving DecidableEq, Repr

/-- Modelled from the spec: `graphics::get_drawable_size(ctx)` (graphics
module, not under `src/`) queries the external windowing collaborator for
the current drawable pixel size. -/
def get_drawable_size (ctx : Context) : Nat × Nat :=
  ctx.window_drawable_size

/-- `CanvasGeneric` from `canvas.rs`: the writable render-target view and
the readable image onto the same underlying texture. -/
structure Canvas where
  target : RenderTargetView
  image : Image
deriving DecidableEq, Repr

namespace Canvas

/-- `Canvas::new(ctx, width, height, samples)` from `canvas.rs`:
`let (w, h) = (width as u16, height as u16)` (the cast truncates modulo
`2^16`), build the `AaMode` and `Kind::D2`, create the texture with one
mip level, derive the two views, and store an `Image` carrying the full
requested `width`/`height`, the context's default sampler info and no
blend mode. -/
def new (ctx : Context) (width height : Nat) (samples : NumSamples) :
    Except AllocationError Canvas :=
  let w := width % 65536
  let h := height % 65536
  let aa := samplesToAa samples
  let kind := Kind.D2 w h aa
  match ctx.gfx_context.factory.create_texture kind with
  | .error e => .error e
  | .ok tex =>
    match view_texture_as_shader_resource tex with
    | .error e => .error e
    | .ok resource =>
      match view_texture_as_render_target tex with
      | .error e => .error e
      | .ok target =>
        .ok { target := target,
              image := { texture := resource,
                         sampler_info := ctx.gfx_context.default_sampler_info,
                         blend_mode := none,
                         width := width,
                         height := height } }

/-- `Canvas::with_window_size(ctx)` from `canvas.rs`: query
`get_drawable_size` and construct with `NumSamples::One`. -/
def with_window_size (ctx : Context) : Except AllocationError Canvas :=
  let (w, h) := get_drawable_size ctx
  new ctx w h NumSamples.One

/-- `Canvas::get_image(&self)` from `canvas.rs`: the contained image. -/
def get_image (c : Canvas) : Image :=
  c.image

/-- `Canvas::into_inner(self)` from `canvas.rs`: consumes the canvas and
returns the contained image. -/
def into_inner (c : Canvas) : Image :=
  c.image

/-- `Drawable::set_blend_mode` for `Canvas` from `canvas.rs`: stores the
mode on the contained image (`self.image.blend_mode = mode`). -/
def set_blend_mode (c : Canvas) (mode : Option BlendMode) : Canvas :=
  { c with image := { c.image with blend_mode := mode } }

/-- `Drawable::get_blend_mode` for `Canvas` from `canvas.rs`: reads the
mode from the contained image. -/
def get_blend_mode (c : Canvas) : Option BlendMode :=
  c.image.blend_mode

end Canvas

/-- `set_canvas(ctx, target)` from `canvas.rs`.  `Some(surface)`: prints
`"{w} {h} in set canvas"` to stdout and assigns `surface.target.clone()`
to `ctx.gfx_context.data.out`; `None`: assigns
`ctx.gfx_context.screen_render_target.clone()`.  Returns the updated
context together with the lines printed to stdout. -/
def set_canvas (ctx : Context) (target : Option Canvas) :
    Context × List String :=
  match target with
  | some surface =>
      ({ ctx with gfx_context :=
          { ctx.gfx_context with data_out := surface.target } },
       [toString surface.image.width ++ " " ++
          toString surface.image.height ++ " in set canvas"])
  | none =>
      ({ ctx with gfx_context :=
          { ctx.gfx_context with data_out :=
              ctx.gfx_context.screen_render_target } },
       [])

/-- The spec's description of `with_window_size` as a plain composition:
query the windowing collaborator's drawable size, then call `Canvas::new`
with that size and single sampling, propagating any failure unchanged. -/
def with_window_size_spec (ctx : Context) : Except AllocationError Canvas :=
  let wh := get_drawable_size ctx
  Canvas.new ctx wh.1 wh.2 NumSamples.One

/-! ## Concrete contexts and canvases used by witnesses -/

/-- A concrete sampler configuration. -/
def samplerEx : SamplerInfo := { filter := 1, wrap := 2 }

/-- A concrete screen render target (a 800×600 single-sampled surface). -/
def screenTargetEx : RenderTargetView :=
  { tex := { kind := Kind.D2 800 600 AaMode.Single } }

/-- A concrete context: backend texture-size limit 16384, the active
destination initially the screen. -/
def ctxEx : Context :=
  { gfx_context :=
      { factory := { maxTextureSize := 16384 },
        default_sampler_info := samplerEx,
        screen_render_target := screenTargetEx,
        data_out := screenTargetEx },
    window_drawable_size := (800, 600) }

/-- A concrete 256×256 single-sampled canvas (the result of
`Canvas::new(ctxEx, 256, 256, One)`). -/
def canvasEx : Canvas :=
  { target := { tex := { kind := Kind.D2 256 256 AaMode.Single } },
    image := { texture := { tex := { kind := Kind.D2 256 256 AaMode.Single } },
               sampler_info := samplerEx,
               blend_mode := none,
               width := 256,
               height := 256 } }

/-- A concrete 65537-wide canvas: what `Canvas::new(ctxEx, 65537, 64, One)`
actually produces (backing texture truncated to 1×64). -/
def canvasBigEx : Canvas :=
  { target := { tex := { kind := Kind.D2 1 64 AaMode.Single } },
    image := { texture := { tex := { kind := Kind.D2 1 64 AaMode.Single } },
               sampler_info := samplerEx,
               blend_mode := none,
               width := 65537,
               height := 64 } }

/-- The canvas value `Canvas::new(ctx, width, height, samples)` returns on
success: both views reference one texture of the truncated dimensions, and
the image records the full requested dimensions, the context's default
sampler info and no blend mode. -/
def newCanvas (ctx : Context) (width height : Nat) (samples : NumSamples) :
    Canvas :=
  let tex : Texture :=
    { kind := Kind.D2 (width % 65536) (height % 65536) (samplesToAa samples) }
  { target := { tex := tex },
    image := { texture := { tex := tex },
               sampler_info := ctx.gfx_context.default_sampler_info,
               blend_mode := none,
               width := width,
               height := height } }

/-- Inversion: whenever `Canvas::new` succeeds, the resulting canvas is
exactly `newCanvas` (texture of the truncated size, image of the full
requested size, no blend mode). -/
theorem new_ok_inv (ctx : Context) (width height : Nat) (s : NumSamples)
    (c : Canvas) (hok : Canvas.new ctx width height s = .ok c) :
    c = newCanvas ctx width height s := by
  unfold Canvas.new Factory.create_texture at hok
  simp only [Kind.width, Kind.height, view_texture_as_shader_resource,
    view_texture_as_render_target] at hok
  by_cases hcond : width % 65536 = 0 ∨ height % 65536 = 0 ∨
      ctx.gfx_context.factory.maxTextureSize < width % 65536 ∨
      ctx.gfx_context.factory.maxTextureSize < height % 65536
  · rw [if_pos hcond] at hok
    simp at hok
  · rw [if_neg hcond] at hok
    cases hok
    rfl

/-! ## Claim theorems -/

/-- C1: evaluation of the code at the failing input.  With a backend
texture-size limit of 16384, a requested width of 65537 exceeds the limit,
yet `Canvas::new` succeeds (the width is truncated to 65537 mod 2^16 = 1
before the size check ever sees it), instead of failing with
`UnsupportedSize` as the claim requires. -/
theorem canvas_new_oversize_succeeds :
    ctxEx.gfx_context.factory.maxTextureSize < 65537 ∧
    Canvas.new ctxEx 65537 64 NumSamples.One = .ok canvasBigEx := by
  exact ⟨by decide, by rfl⟩

/-- C2: for every width and height that are positive and within the backend
texture-size limit (which fits the backend's 16-bit dimension type), and
every sample count, `Canvas::new` succeeds, and `get_image()` on the
resulting canvas reports exactly the requested width and height. -/
theorem canvas_new_valid_ok (ctx : Context) (width height : Nat)
    (s : NumSamples)
    (hmax : ctx.gfx_context.factory.maxTextureSize ≤ 65535)
    (hw0 : 0 < width)
    (hw : width ≤ ctx.gfx_context.factory.maxTextureSize)
    (hh0 : 0 < height)
    (hh : height ≤ ctx.gfx_context.factory.maxTextureSize) :
    Canvas.new ctx width height s = .ok (newCanvas ctx width height s) ∧
    (Canvas.get_image (newCanvas ctx width height s)).width = width ∧
    (Canvas.get_image (newCanvas ctx width height s)).height = height := by
  have hw' : width % 65536 = width := Nat.mod_eq_of_lt (by omega)
  have hh' : height % 65536 = height := Nat.mod_eq_of_lt (by omega)
  refine ⟨?_, rfl, rfl⟩
  unfold Canvas.new Factory.create_texture newCanvas
  simp only [Kind.width, Kind.height, hw', hh']
  rw [if_neg (by omega)]
  rfl

/-- C2 witness: at the concrete context (limit 16384) and a 256×256
request, `Canvas::new` succeeds and the image reports 256×256. -/
theorem canvas_new_valid_ok_witness :
    Canvas.new ctxEx 256 256 NumSamples.One =
      .ok (newCanvas ctxEx 256 256 NumSamples.One) ∧
    (Canvas.get_image (newCanvas ctxEx 256 256 NumSamples.One)).width = 256 ∧
    (Canvas.get_image (newCanvas ctxEx 256 256 NumSamples.One)).height =
      256 :=
  canvas_new_valid_ok ctxEx 256 256 NumSamples.One (by decide) (by decide)
    (by decide) (by decide) (by decide)

/-- C3: switching the render destination to a canvas and then back to the
screen leaves the active destination (`data.out`) equal to the original
screen destination captured at context creation, which the round trip also
leaves untouched. -/
theorem set_canvas_roundtrip (ctx : Context) (c : Canvas) :
    (set_canvas (set_canvas ctx (some c)).1 none).1.gfx_context.data_out =
      ctx.gfx_context.screen_render_target ∧
    (set_canvas (set_canvas ctx (some c)).1
        none).1.gfx_context.screen_render_target =
      ctx.gfx_context.screen_render_target := by
  exact ⟨rfl, rfl⟩

/-- C4: after switching to a canvas the active destination is that
canvas's writable view, and switching from canvas `a` directly to canvas
`b` leaves the active destination equal to `b`'s writable view — the
most recent call wins, with no implicit stacking. -/
theorem set_canvas_latest_wins (ctx : Context) (a b : Canvas) :
    (set_canvas ctx (some a)).1.gfx_context.data_out = a.target ∧
    (set_canvas (set_canvas ctx (some a)).1
        (some b)).1.gfx_context.data_out = b.target := by
  exact ⟨rfl, rfl⟩

/-- C5: evaluation of the code at the failing input.  Switching to a
concrete 256×256 canvas prints `"256 256 in set canvas"` to stdout (a
leftover debug `println!`), an observable side effect beyond the
destination assignment; switching to `None` prints nothing. -/
theorem set_canvas_prints :
    (set_canvas ctxEx (some canvasEx)).2 = ["256 256 in set canvas"] ∧
    (set_canvas ctxEx (some canvasEx)).2 ≠ [] ∧
    (set_canvas ctxEx none).2 = [] := by
  refine ⟨by rfl, ?_, by rfl⟩
  intro h
  simp [set_canvas] at h

/-- C6: setting a blend mode on a canvas makes `get_blend_mode` return it,
and the image returned by `into_inner` carries that same blend mode (both
read the one field on the contained image). -/
theorem blend_mode_roundtrip (c : Canvas) (m : BlendMode) :
    Canvas.get_blend_mode (Canvas.set_blend_mode c (some m)) = some m ∧
    (Canvas.into_inner (Canvas.set_blend_mode c (some m))).blend_mode =
      some m := by
  exact ⟨rfl, rfl⟩

/-- C7: the image returned by `into_inner` has the same width, height and
sampler configuration that `get_image` reported on the canvas before the
(consuming) call — both return the contained image. -/
theorem into_inner_preserves_image (c : Canvas) :
    (Canvas.into_inner c).width = (Canvas.get_image c).width ∧
    (Canvas.into_inner c).height = (Canvas.get_image c).height ∧
    (Canvas.into_inner c).sampler_info =
      (Canvas.get_image c).sampler_info := by
  exact ⟨rfl, rfl, rfl⟩

/-- C8: `with_window_size` is exactly the composition of querying the
windowing collaborator's current drawable size and calling `Canvas::new`
with that size and single sampling, propagating any allocation failure
unchanged. -/
theorem with_window_size_refines (ctx : Context) :
    Canvas.with_window_size ctx = with_window_size_spec ctx := by
  unfold Canvas.with_window_size with_window_size_spec
  obtain ⟨g, w, h⟩ := ctx
  rfl

/-- C9: `Canvas::new` truncates the requested width and height modulo 2^16
when creating the backend texture, while the stored image reports the full
requested dimensions; so whenever it succeeds on a width or height of
65536 or more, the allocated texture's size differs from what
`get_image()` reports. -/
theorem canvas_new_truncates (ctx : Context) (width height : Nat)
    (s : NumSamples) (c : Canvas)
    (hbig : 65536 ≤ width ∨ 65536 ≤ height)
    (hok : Canvas.new ctx width height s = .ok c) :
    c.target.tex.kind.width = width % 65536 ∧
    c.target.tex.kind.height = height % 65536 ∧
    (Canvas.get_image c).width = width ∧
    (Canvas.get_image c).height = height ∧
    (c.target.tex.kind.width ≠ (Canvas.get_image c).width ∨
      c.target.tex.kind.height ≠ (Canvas.get_image c).height) := by
  have hc := new_ok_inv ctx width height s c hok
  subst hc
  refine ⟨rfl, rfl, rfl, rfl, ?_⟩
  rcases hbig with hbig | hbig
  · exact Or.inl (by simp only [newCanvas, Canvas.get_image, Kind.width]; omega)
  · exact Or.inr (by simp only [newCanvas, Canvas.get_image, Kind.height]; omega)

/-- C9 witness: the concrete 65537×64 request succeeds with a 1×64 backing
texture while the image reports 65537×64. -/
theorem canvas_new_truncates_witness :
    canvasBigEx.target.tex.kind.width = 65537 % 65536 ∧
    canvasBigEx.target.tex.kind.height = 64 % 65536 ∧
    (Canvas.get_image canvasBigEx).width = 65537 ∧
    (Canvas.get_image canvasBigEx).height = 64 ∧
    (canvasBigEx.target.tex.kind.width ≠
        (Canvas.get_image canvasBigEx).width ∨
      canvasBigEx.target.tex.kind.height ≠
        (Canvas.get_image canvasBigEx).height) :=
  canvas_new_truncates ctxEx 65537 64 NumSamples.One canvasBigEx
    (Or.inl (by decide)) (by rfl)

/-- C10: every canvas `Canvas::new` returns starts with no blend mode:
`get_blend_mode()` is `None` until `set_blend_mode` is called. -/
theorem canvas_new_blend_mode_none (ctx : Context) (width height : Nat)
    (s : NumSamples) (c : Canvas)
    (hok : Canvas.new ctx width height s = .ok c) :
    Canvas.get_blend_mode c = none := by
  have hc := new_ok_inv ctx width height s c hok
  subst hc
  rfl

/-- C10 witness: the concrete 256×256 canvas starts with no blend mode. -/
theorem canvas_new_blend_mode_none_witness :
    Canvas.get_blend_mode canvasEx = none :=
  canvas_new_blend_mode_none ctxEx 256 256 NumSamples.One canvasEx (by rfl)

end Ggez
